import Mathlib

/-!
# The SG_IO transport shim of `py3_sg.c` and `py_sg.c`

A shallow embedding of the three functions of `py3_sg.c` (`sg_write`,
`sg_read_into_buf`, `sg_read_as_bin_str`) and the two functions of `py_sg.c`
(`sg_write`, `sg_read`).

Conventions of the embedding.

* The arguments are the values left by a successful `PyArg_ParseTuple`; optional
  arguments are positional, so a timeout can only follow a buffer argument.
* Bytes are natural numbers below 256, C integers are `Int`/`Nat` with an explicit
  reduction at every narrowing assignment (`Py_ssize_t` has 64 bits, `int` 32 bits,
  `unsigned char` 8 bits).
* The kernel is a function from the submitted request to a reply: the `ioctl`
  return value, `errno`, the output fields of `sg_io_hdr_t` the code reads, the
  contents of the 32 byte `sense` array and the bytes stored at `dxferp`.
* Memory allocation is assumed to succeed.
* A read that leaves the object it started in has no defined result in C; the
  embedding reports it as `Outcome.undefined`.
-/

namespace Sg

/-! ## Constants of `<scsi/sg.h>` -/

/-- Value of `SG_DXFER_TO_DEV` in the Linux header `scsi/sg.h`. -/
def SG_DXFER_TO_DEV : Int := -2

/-- Value of `SG_DXFER_FROM_DEV` in the Linux header `scsi/sg.h`. -/
def SG_DXFER_FROM_DEV : Int := -3

/-- Value of `SG_INFO_OK_MASK` in the Linux header `scsi/sg.h`. -/
def SG_INFO_OK_MASK : Nat := 1

/-- Value of `SG_INFO_OK` in the Linux header `scsi/sg.h`. -/
def SG_INFO_OK : Nat := 0

/-! ## Machine integers -/

/-- Assignment of an integer to an `unsigned char` object. -/
def toUChar (v : Int) : Nat := (v % 256).toNat

/-- Assignment of an integer to an `unsigned int` object. -/
def toUInt (v : Int) : Nat := (v % 4294967296).toNat

/-- Assignment of an integer to an `int` object (two's complement wrap-around). -/
def toCInt (v : Int) : Int := (v + 2147483648) % 4294967296 - 2147483648

/-- A local `int` initialised with `init` whose address is given to the argument
parser: the parser stores the optional argument when the caller supplied one. -/
def intLocal (init : Int) (stored : Option Int) : Int := stored.getD init

/-- A local `const int` initialised with `init` whose address is given to the
argument parser.  The object is const-qualified: a store through the pointer is
undefined (C11 6.7.3p6), and the later read of the object by name is the read of a
constant, which yields the initialiser (the C front ends of GCC, when optimising, and
of Clang replace such a read by the initialiser). -/
def constIntLocal (init : Int) (_stored : Option Int) : Int := init

/-! ## The request and the reply -/

/-- What a pointer field of the request points at. -/
inductive Ptr where
  | null
  | cmd
  | buf
  | sense
  deriving DecidableEq, Repr

/-- The input fields of `sg_io_hdr_t`. -/
structure sg_io_hdr_t where
  interface_id : Int
  dxfer_direction : Int
  cmd_len : Nat
  mx_sb_len : Nat
  iovec_count : Nat
  dxfer_len : Nat
  dxferp : Ptr
  cmdp : Ptr
  sbp : Ptr
  timeout : Nat
  flags : Nat
  pack_id : Int
  usr_ptr : Ptr
  deriving DecidableEq, Repr

/-- The header after `memset(&io, 0, sizeof(io))`. -/
def zeroed : sg_io_hdr_t :=
  { interface_id := 0, dxfer_direction := 0, cmd_len := 0, mx_sb_len := 0,
    iovec_count := 0, dxfer_len := 0, dxferp := Ptr.null, cmdp := Ptr.null,
    sbp := Ptr.null, timeout := 0, flags := 0, pack_id := 0, usr_ptr := Ptr.null }

/-- What one `ioctl(sg_fd, SG_IO, &io)` leaves behind: the return value `r`,
`errno`, the output fields of the header that the code reads, the contents of the
`sense` array and the bytes the kernel stored at `dxferp` (from offset 0). -/
structure SgReply where
  r : Int
  errno : Int
  masked_status : Nat
  host_status : Nat
  driver_status : Nat
  sb_len_wr : Nat
  resid : Int
  info : Nat
  sense : List Nat
  written : List Nat
  deriving DecidableEq, Repr

/-- The kernel: descriptor, request header, bytes at `cmdp`, bytes at `dxferp`. -/
abbrev Kernel := Int → sg_io_hdr_t → List Nat → List Nat → SgReply

/-- The buffer at `dxferp`, which held `old`, after the kernel stored `written` at its
start; the buffer keeps its size. -/
def store (old written : List Nat) : List Nat :=
  (written ++ old.drop written.length).take old.length

/-! ## Python values and outcomes -/

/-- The Python objects the functions build. -/
inductive PyVal where
  | none
  | int (v : Int)
  | bytes (b : List Nat)
  | unicode (cps : List Nat)
  deriving DecidableEq, Repr

/-- How a call ends: a returned object, one of the exceptions the functions raise
(`SCSIError` with its `args`), or no defined result. -/
inductive Outcome where
  | returned (v : PyVal)
  | OSError (errno : Int)
  | TypeError (msg : String)
  | SystemError
  | SCSIError (args : List PyVal)
  | undefined
  deriving DecidableEq, Repr

/-- One call: its outcome, the SG_IO calls made (descriptor, request, reply), the
sizes of the buffers the call allocated, and the contents of the data buffer when
the call returns. -/
structure Run where
  outcome : Outcome
  ioctls : List (Int × sg_io_hdr_t × SgReply)
  allocs : List Nat
  mem : List Nat
  deriving DecidableEq, Repr

/-- The three-way classification of the spec. -/
inductive Class3 where
  | Success
  | TransportError
  | SCSIError
  deriving DecidableEq, Repr

/-- The spec's outcome class of a run, when it has one of the three. -/
def classify : Outcome → Option Class3
  | Outcome.returned _ => some Class3.Success
  | Outcome.OSError _ => some Class3.TransportError
  | Outcome.SCSIError _ => some Class3.SCSIError
  | _ => Option.none

/-- The status classification algorithm in the words of the spec (section 4.1):
failure of the call is a TransportError, else a masked completion info different
from the OK value is a SCSIError, else Success. -/
def specClassify (r : Int) (info : Nat) : Class3 :=
  if r < 0 then Class3.TransportError
  else if (info &&& SG_INFO_OK_MASK) ≠ SG_INFO_OK then Class3.SCSIError
  else Class3.Success

/-! ## CPython API used by the functions -/

/-- The byte-at-a-time UTF-8 decoder: `need` continuation bytes are still missing
from the code point accumulated in `acc`, and the next one must lie in `lo..hi`
(the well-formed byte sequences of the Unicode standard, table 3-7). -/
def utf8Go : Nat → Nat → Nat → Nat → List Nat → Option (List Nat)
  | need, _, _, _, [] => if need = 0 then some [] else Option.none
  | 0, _, _, _, b :: rest =>
    if b < 128 then (utf8Go 0 0 128 191 rest).map (fun cps => b :: cps)
    else if 194 ≤ b ∧ b < 224 then utf8Go 1 (b - 192) 128 191 rest
    else if 224 ≤ b ∧ b < 240 then
      utf8Go 2 (b - 224) (if b = 224 then 160 else 128) (if b = 237 then 159 else 191) rest
    else if 240 ≤ b ∧ b < 245 then
      utf8Go 3 (b - 240) (if b = 240 then 144 else 128) (if b = 244 then 143 else 191) rest
    else Option.none
  | n + 1, acc, lo, hi, b :: rest =>
    if lo ≤ b ∧ b ≤ hi then
      if n = 0 then (utf8Go 0 0 128 191 rest).map (fun cps => (acc * 64 + (b - 128)) :: cps)
      else utf8Go n (acc * 64 + (b - 128)) 128 191 rest
    else Option.none

/-- Strict UTF-8 decoding as done by `PyUnicode_FromStringAndSize`: the code points
of a well-formed byte sequence, `none` (a `UnicodeDecodeError`) otherwise. -/
def utf8Decode (bs : List Nat) : Option (List Nat) := utf8Go 0 0 128 191 bs

/-- Reading `n` bytes from the start of `uint8_t sense[32]`; `none` when the read
runs past the array. -/
def readSense (sense : List Nat) (n : Nat) : Option (List Nat) :=
  if n ≤ 32 then some (sense.take n) else Option.none

/-- Python 3 `PyBytes_FromStringAndSize(buf, len)` on a buffer holding `buf`: a
negative size is a `SystemError`, a size beyond the buffer reads past it. -/
def PyBytes_FromStringAndSize (buf : List Nat) (len : Int) : Outcome :=
  if len < 0 then Outcome.SystemError
  else if len.toNat ≤ buf.length then Outcome.returned (PyVal.bytes (buf.take len.toNat))
  else Outcome.undefined

/-- Python 2 `_PyString_Resize(&bufObj, len)` followed by `return bufObj`: a negative
size is a `SystemError`, a size beyond the string grows it with indeterminate
bytes. -/
def PyString_Resize (buf : List Nat) (len : Int) : Outcome :=
  if len < 0 then Outcome.SystemError
  else if len.toNat ≤ buf.length then Outcome.returned (PyVal.bytes (buf.take len.toNat))
  else Outcome.undefined

/-! ## `py3_sg.c` -/

namespace py3_sg

/-- The statement `PyErr_SetObject(SCSIError, Py_BuildValue("BBBs#", io.masked_status,
io.host_status, io.driver_status, sense, io.sb_len_wr))` under Python 3: the three
status fields become integers (`B` takes the promoted `int` as it is), `s#` decodes
`sb_len_wr` bytes of `sense` as UTF-8 into a text string; when the decoding fails
`Py_BuildValue` returns `NULL` and the exception is raised without arguments. -/
def setSCSIError (rep : SgReply) : Outcome :=
  match readSense rep.sense rep.sb_len_wr with
  | Option.none => Outcome.undefined
  | some bs =>
    match utf8Decode bs with
    | Option.none => Outcome.SCSIError []
    | some cps =>
      Outcome.SCSIError [PyVal.int rep.masked_status, PyVal.int rep.host_status,
        PyVal.int rep.driver_status, PyVal.unicode cps]

/-- The function `sg_write` of `py3_sg.c`; `opt` holds the optional arguments
`buf` and, after it, `timeout`. -/
def sg_write (kernel : Kernel) (sg_fd : Int) (cmd : List Nat)
    (opt : Option (List Nat × Option Int)) : Run :=
  let timeout : Int := intLocal 20000 (opt.bind Prod.snd)
  let buf : Option (List Nat) := opt.map Prod.fst
  let cmdLen : Int := cmd.length
  let bufLen : Int := match buf with
    | some b => b.length
    | Option.none => 0
  let io : sg_io_hdr_t :=
    { zeroed with
      interface_id := 83
      cmd_len := toUChar cmdLen
      mx_sb_len := 32
      dxfer_direction := SG_DXFER_TO_DEV
      dxfer_len := toUInt bufLen
      dxferp := if buf.isSome then Ptr.buf else Ptr.null
      cmdp := Ptr.cmd
      sbp := Ptr.sense
      timeout := toUInt timeout }
  let data : List Nat := buf.getD []
  let rep := kernel sg_fd io cmd data
  let outcome : Outcome :=
    if rep.r < 0 then Outcome.OSError rep.errno
    else if (rep.info &&& SG_INFO_OK_MASK) ≠ SG_INFO_OK then setSCSIError rep
    else Outcome.returned PyVal.none
  { outcome := outcome, ioctls := [(sg_fd, io, rep)], allocs := [], mem := store data rep.written }

/-- The function `sg_read_into_buf` of `py3_sg.c`; `bufObj` is the content of the
caller's buffer, `timeoutArg` the optional fourth argument. -/
def sg_read_into_buf (kernel : Kernel) (sg_fd : Int) (cmd : List Nat) (bufObj : List Nat)
    (timeoutArg : Option Int) : Run :=
  let timeout : Int := constIntLocal 20000 timeoutArg
  let cmdLen : Int := cmd.length
  let bufLen : Int := bufObj.length
  let io : sg_io_hdr_t :=
    { zeroed with
      interface_id := 83
      cmd_len := toUChar cmdLen
      mx_sb_len := 32
      dxfer_direction := SG_DXFER_FROM_DEV
      dxfer_len := toUInt bufLen
      dxferp := Ptr.buf
      cmdp := Ptr.cmd
      sbp := Ptr.sense
      timeout := toUInt timeout }
  let rep := kernel sg_fd io cmd bufObj
  let outcome : Outcome :=
    if rep.r < 0 then Outcome.OSError rep.errno
    else if (rep.info &&& SG_INFO_OK_MASK) ≠ SG_INFO_OK then setSCSIError rep
    else
      let len : Int := toCInt ((io.dxfer_len : Int) - rep.resid)
      Outcome.returned (PyVal.int len)
  { outcome := outcome, ioctls := [(sg_fd, io, rep)], allocs := [],
    mem := store bufObj rep.written }

/-- The function `sg_read_as_bin_str` of `py3_sg.c`. -/
def sg_read_as_bin_str (kernel : Kernel) (sg_fd : Int) (cmd : List Nat) (bufLen : Int)
    (timeoutArg : Option Int) : Run :=
  let timeout : Int := constIntLocal 20000 timeoutArg
  let cmdLen : Int := cmd.length
  if bufLen ≤ 0 then
    { outcome := Outcome.TypeError "must provide an integer (> 0) specifying the buffer size",
      ioctls := [], allocs := [], mem := [] }
  else
    let buf : List Nat := List.replicate bufLen.toNat 0
    let io : sg_io_hdr_t :=
      { zeroed with
        interface_id := 83
        cmd_len := toUChar cmdLen
        mx_sb_len := 32
        dxfer_direction := SG_DXFER_FROM_DEV
        dxfer_len := toUInt bufLen
        dxferp := Ptr.buf
        cmdp := Ptr.cmd
        sbp := Ptr.sense
        timeout := toUInt timeout }
    let rep := kernel sg_fd io cmd buf
    let mem : List Nat := store buf rep.written
    let outcome : Outcome :=
      if rep.r < 0 then Outcome.OSError rep.errno
      else if (rep.info &&& SG_INFO_OK_MASK) ≠ SG_INFO_OK then setSCSIError rep
      else
        let len : Int := toCInt ((io.dxfer_len : Int) - rep.resid)
        PyBytes_FromStringAndSize mem len
    { outcome := outcome, ioctls := [(sg_fd, io, rep)], allocs := [bufLen.toNat], mem := mem }

/-- A call of one of the three entries of the method table `SgMethods`, with the
arguments that follow `sg_fd` and `cmd`. -/
inductive Call where
  | write (opt : Option (List Nat × Option Int))
  | read_into_buf (bufObj : List Nat) (timeoutArg : Option Int)
  | read_as_bin_str (bufLen : Int) (timeoutArg : Option Int)
  deriving DecidableEq, Repr

/-- The method table `SgMethods` of `py3_sg.c`. -/
def SgMethods (kernel : Kernel) (sg_fd : Int) (cmd : List Nat) : Call → Run
  | Call.write opt => sg_write kernel sg_fd cmd opt
  | Call.read_into_buf bufObj timeoutArg => sg_read_into_buf kernel sg_fd cmd bufObj timeoutArg
  | Call.read_as_bin_str bufLen timeoutArg =>
    sg_read_as_bin_str kernel sg_fd cmd bufLen timeoutArg

end py3_sg

/-! ## `py_sg.c` -/

namespace py_sg

/-- The statement `PyErr_SetObject(SCSIError, Py_BuildValue("BBBs#", ...))` under
Python 2: `s#` copies `sb_len_wr` bytes of `sense` into a byte string. -/
def setSCSIError (rep : SgReply) : Outcome :=
  match readSense rep.sense rep.sb_len_wr with
  | Option.none => Outcome.undefined
  | some bs =>
    Outcome.SCSIError [PyVal.int rep.masked_status, PyVal.int rep.host_status,
      PyVal.int rep.driver_status, PyVal.bytes bs]

/-- The function `sg_write` of `py_sg.c`. -/
def sg_write (kernel : Kernel) (sg_fd : Int) (cmd : List Nat)
    (opt : Option (List Nat × Option Int)) : Run :=
  let timeout : Int := intLocal 20000 (opt.bind Prod.snd)
  let buf : Option (List Nat) := opt.map Prod.fst
  let cmdLen : Int := cmd.length
  let bufLen : Int := match buf with
    | some b => b.length
    | Option.none => 0
  let io : sg_io_hdr_t :=
    { zeroed with
      interface_id := 83
      cmd_len := toUChar cmdLen
      mx_sb_len := 32
      dxfer_direction := SG_DXFER_TO_DEV
      dxfer_len := toUInt bufLen
      dxferp := if buf.isSome then Ptr.buf else Ptr.null
      cmdp := Ptr.cmd
      sbp := Ptr.sense
      timeout := toUInt timeout }
  let data : List Nat := buf.getD []
  let rep := kernel sg_fd io cmd data
  let outcome : Outcome :=
    if rep.r < 0 then Outcome.OSError rep.errno
    else if (rep.info &&& SG_INFO_OK_MASK) ≠ SG_INFO_OK then setSCSIError rep
    else Outcome.returned PyVal.none
  { outcome := outcome, ioctls := [(sg_fd, io, rep)], allocs := [], mem := store data rep.written }

/-- The third argument of `read`: a writable buffer (its content), an integer object
of value `n`, or an object that is neither and has no conversion to an integer. -/
inductive BufArg where
  | buffer (b : List Nat)
  | size (n : Int)
  | other
  deriving DecidableEq, Repr

/-- The call `PyInt_AsLong(bufObj)`: the value of an integer that fits a C `long`,
`-1` for anything else. -/
def PyInt_AsLong : BufArg → Int
  | BufArg.size n => if -9223372036854775808 ≤ n ∧ n < 9223372036854775808 then n else -1
  | _ => -1

/-- The function `sg_read` of `py_sg.c`; `fresh i` is the indeterminate byte at
offset `i` of the string made by `PyString_FromStringAndSize(NULL, bufLen)`. -/
def sg_read (fresh : Nat → Nat) (kernel : Kernel) (sg_fd : Int) (cmd : List Nat)
    (bufObj : BufArg) (timeoutArg : Option Int) : Run :=
  let timeout : Int := intLocal 20000 timeoutArg
  let cmdLen : Int := cmd.length
  let parsed : Option (List Nat × Int × Bool) :=
    match bufObj with
    | BufArg.buffer b => some (b, (b.length : Int), false)
    | _ =>
      let bufLen : Int := PyInt_AsLong bufObj
      if bufLen ≤ 0 then Option.none
      else some ((List.range bufLen.toNat).map fresh, bufLen, true)
  match parsed with
  | Option.none =>
    { outcome := Outcome.TypeError
        "must provide a writable buffer object, or an integer (> 0) specifying the buffer size",
      ioctls := [], allocs := [], mem := [] }
  | some (buf, bufLen, newbuf) =>
    let io : sg_io_hdr_t :=
      { zeroed with
        interface_id := 83
        cmd_len := toUChar cmdLen
        mx_sb_len := 32
        dxfer_direction := SG_DXFER_FROM_DEV
        dxfer_len := toUInt bufLen
        dxferp := Ptr.buf
        cmdp := Ptr.cmd
        sbp := Ptr.sense
        timeout := toUInt timeout }
    let rep := kernel sg_fd io cmd buf
    let mem : List Nat := store buf rep.written
    let outcome : Outcome :=
      if rep.r < 0 then Outcome.OSError rep.errno
      else if (rep.info &&& SG_INFO_OK_MASK) ≠ SG_INFO_OK then setSCSIError rep
      else
        let len : Int := toCInt ((io.dxfer_len : Int) - rep.resid)
        if newbuf then PyString_Resize mem len
        else Outcome.returned (PyVal.int len)
    { outcome := outcome, ioctls := [(sg_fd, io, rep)],
      allocs := if newbuf then [bufLen.toNat] else [], mem := mem }

end py_sg

/-! ## Kernel stubs used for the concrete evaluations -/

/-- The reply of a kernel that completes a request cleanly and moves no data. -/
def okReply : SgReply :=
  { r := 0, errno := 0, masked_status := 0, host_status := 0, driver_status := 0,
    sb_len_wr := 0, resid := 0, info := 0, sense := List.replicate 32 0, written := [] }

/-- A kernel stub that gives the same reply to every request. -/
def stub (rep : SgReply) : Kernel := fun _ _ _ _ => rep

/-- A kernel stub that completes every request cleanly and fills the whole
requested length with the byte 65. -/
def fillStub : Kernel :=
  fun _ io _ _ => { okReply with written := List.replicate io.dxfer_len 65 }

/-- A six byte command of zeros (TEST UNIT READY). -/
def cdb6 : List Nat := [0, 0, 0, 0, 0, 0]

/-- Fixed format sense data of a medium error with the VALID bit set (first byte
`F0`), 18 bytes, in a 32 byte array. -/
def senseMediumError : List Nat :=
  [240, 0, 3, 0, 0, 0, 0, 10, 0, 0, 0, 0, 17, 0, 0, 0, 0, 0] ++ List.replicate 14 0

/-! ## Helper lemmas -/

theorem toUInt_of_lt (v : Int) (h0 : 0 ≤ v) (h : v < 4294967296) : (toUInt v : Int) = v := by
  unfold toUInt
  rw [Int.toNat_of_nonneg (Int.emod_nonneg _ (by norm_num))]
  exact Int.emod_eq_of_lt h0 h

theorem toUChar_of_lt (v : Int) (h0 : 0 ≤ v) (h : v < 256) : (toUChar v : Int) = v := by
  unfold toUChar
  rw [Int.toNat_of_nonneg (Int.emod_nonneg _ (by norm_num))]
  exact Int.emod_eq_of_lt h0 h

theorem toCInt_of_range (v : Int) (h0 : -2147483648 ≤ v) (h : v < 2147483648) :
    toCInt v = v := by
  unfold toCInt
  rw [Int.emod_eq_of_lt (by omega) (by omega)]
  omega

theorem length_store (old written : List Nat) :
    (store old written).length = old.length := by
  unfold store
  simp only [List.length_take, List.length_append, List.length_drop]
  omega


/-! ## C1: the three-way classification -/

theorem classify_setSCSIError (rep : SgReply) (h : rep.sb_len_wr ≤ 32) :
    classify (py3_sg.setSCSIError rep) = some Class3.SCSIError := by
  unfold py3_sg.setSCSIError readSense
  rw [if_pos h]
  simp only []
  split <;> rfl

theorem classify_three_way (rep : SgReply) (ok : Outcome) (hs : rep.sb_len_wr ≤ 32)
    (hok : 0 ≤ rep.r → (rep.info &&& SG_INFO_OK_MASK) = SG_INFO_OK →
      classify ok = some Class3.Success) :
    classify (if rep.r < 0 then Outcome.OSError rep.errno
      else if (rep.info &&& SG_INFO_OK_MASK) ≠ SG_INFO_OK then py3_sg.setSCSIError rep
      else ok) = some (specClassify rep.r rep.info) ∧
    (rep.r < 0 → (if rep.r < 0 then Outcome.OSError rep.errno
      else if (rep.info &&& SG_INFO_OK_MASK) ≠ SG_INFO_OK then py3_sg.setSCSIError rep
      else ok) = Outcome.OSError rep.errno) := by
  unfold specClassify
  by_cases hr : rep.r < 0
  · rw [if_pos hr, if_pos hr]
    exact ⟨rfl, fun _ => rfl⟩
  · rw [if_neg hr, if_neg hr]
    refine ⟨?_, fun h => absurd h hr⟩
    by_cases hi : (rep.info &&& SG_INFO_OK_MASK) ≠ SG_INFO_OK
    · rw [if_pos hi, if_pos hi]
      exact classify_setSCSIError rep hs
    · rw [if_neg hi, if_neg hi]
      exact hok (not_lt.mp hr) (not_not.mp hi)

/-- Claim C1 (amended).  For each of the three methods of `py3_sg.c` and every reply
`rep` of the kernel to the one request the call submits, provided the reported sense
length does not exceed the `mx_sb_len` of the request and, for `read_as_bin_str`, the
capacity fits an `int` and the reported residual lies between 0 and the capacity:
the outcome class is the one the spec's classification algorithm assigns to
`(r, info)` (TransportError iff `r < 0`, else SCSIError iff the masked info is not OK,
else Success), and for `r < 0` the outcome is the `OSError` of `errno`, whatever the
other fields hold. -/
theorem C1_classification_amended (kernel : Kernel) (sg_fd : Int) (cmd : List Nat)
    (c : py3_sg.Call) (io : sg_io_hdr_t) (rep : SgReply)
    (hcall : (py3_sg.SgMethods kernel sg_fd cmd c).ioctls = [(sg_fd, io, rep)])
    (hsense : rep.sb_len_wr ≤ io.mx_sb_len)
    (hlen : ∀ bufLen t, c = py3_sg.Call.read_as_bin_str bufLen t →
      bufLen < 2147483648 ∧ 0 ≤ rep.resid ∧ rep.resid ≤ bufLen) :
    classify (py3_sg.SgMethods kernel sg_fd cmd c).outcome = some (specClassify rep.r rep.info) ∧
    (rep.r < 0 → (py3_sg.SgMethods kernel sg_fd cmd c).outcome = Outcome.OSError rep.errno) := by
  cases c with
  | write opt =>
    simp only [py3_sg.SgMethods, py3_sg.sg_write, List.cons.injEq, Prod.mk.injEq, true_and,
      and_true] at hcall ⊢
    obtain ⟨hio, hrep⟩ := hcall
    rw [← hio] at hsense
    rw [hrep]
    exact classify_three_way rep _ hsense (fun _ _ => rfl)
  | read_into_buf bufObj t =>
    simp only [py3_sg.SgMethods, py3_sg.sg_read_into_buf, List.cons.injEq, Prod.mk.injEq,
      true_and, and_true] at hcall ⊢
    obtain ⟨hio, hrep⟩ := hcall
    rw [← hio] at hsense
    rw [hrep]
    exact classify_three_way rep _ hsense (fun _ _ => rfl)
  | read_as_bin_str bufLen t =>
    obtain ⟨h31, hres0, hres⟩ := hlen bufLen t rfl
    simp only [py3_sg.SgMethods, py3_sg.sg_read_as_bin_str] at hcall ⊢
    by_cases hb : bufLen ≤ 0
    · rw [if_pos hb] at hcall
      simp at hcall
    · rw [if_neg hb] at hcall ⊢
      simp only [List.cons.injEq, Prod.mk.injEq, true_and, and_true] at hcall ⊢
      obtain ⟨hio, hrep⟩ := hcall
      rw [← hio] at hsense
      rw [hrep]
      refine classify_three_way rep _ hsense (fun _ _ => ?_)
      have hu : (toUInt bufLen : Int) = bufLen := toUInt_of_lt bufLen (by omega) (by omega)
      rw [hu, toCInt_of_range _ (by omega) (by omega)]
      unfold PyBytes_FromStringAndSize
      rw [if_neg (by omega)]
      have hl : (bufLen - rep.resid).toNat ≤
          (store (List.replicate bufLen.toNat 0) rep.written).length := by
        rw [length_store, List.length_replicate]
        omega
      rw [if_pos hl]
      rfl

/-- Claim C1 fails as stated.  `read_as_bin_str` with capacity 1 against a kernel that
reports success (`r = 0`, `info = 0`) and a residual of 2 computes the length -1 and
ends in the `SystemError` of `PyBytes_FromStringAndSize`, which is none of the three
outcomes, while the classification algorithm says Success; and `write` against a
kernel reporting a failed command with `sb_len_wr = 33` reads past the 32 byte sense
array. -/
theorem C1_counterexample :
    (py3_sg.SgMethods (stub { okReply with resid := 2 }) 3 cdb6
        (py3_sg.Call.read_as_bin_str 1 Option.none)).outcome = Outcome.SystemError ∧
    classify (py3_sg.SgMethods (stub { okReply with resid := 2 }) 3 cdb6
        (py3_sg.Call.read_as_bin_str 1 Option.none)).outcome = Option.none ∧
    specClassify 0 0 = Class3.Success ∧
    (py3_sg.SgMethods (stub { okReply with info := 1, sb_len_wr := 33 }) 3 cdb6
        (py3_sg.Call.write Option.none)).outcome = Outcome.undefined ∧
    specClassify 0 1 = Class3.SCSIError := by
  decide

/-- Witness of C1: a read of capacity 4 answered with three bytes and residual 1. -/
theorem C1_classification_amended_witness :
    classify (py3_sg.SgMethods (stub { okReply with resid := 1, written := [65, 66, 67] }) 3 cdb6
        (py3_sg.Call.read_as_bin_str 4 Option.none)).outcome = some Class3.Success ∧
    (py3_sg.SgMethods (stub { okReply with resid := 1, written := [65, 66, 67] }) 3 cdb6
        (py3_sg.Call.read_as_bin_str 4 Option.none)).outcome
      = Outcome.returned (PyVal.bytes [65, 66, 67]) :=
  ⟨(C1_classification_amended (stub { okReply with resid := 1, written := [65, 66, 67] }) 3 cdb6
      (py3_sg.Call.read_as_bin_str 4 Option.none)
      { zeroed with interface_id := 83, cmd_len := 6, mx_sb_len := 32,
                    dxfer_direction := -3, dxfer_len := 4, dxferp := Ptr.buf, cmdp := Ptr.cmd,
                    sbp := Ptr.sense, timeout := 20000 }
      { okReply with resid := 1, written := [65, 66, 67] }
      (by decide) (by decide)
      (by intro bufLen t h; cases h; decide)).1, by decide⟩


/-! ## C2: the capacity check -/

theorem PyInt_AsLong_size (c : Int) :
    py_sg.PyInt_AsLong (py_sg.BufArg.size c)
      = if -9223372036854775808 ≤ c ∧ c < 9223372036854775808 then c else -1 := rfl

/-- Claim C3 fails as stated.  Against a kernel that reports success, `read_into_buf`
on a one byte buffer returns the count -1 when the reported residual is 2, returns the
count 2 (more than the requested length 1) when the reported residual is -1, and on a
buffer of 2147483648 bytes with residual 0 returns -2147483648. -/
theorem C3_counterexample :
    (py3_sg.sg_read_into_buf (stub { okReply with resid := 2 }) 3 cdb6 [7] Option.none).outcome
      = Outcome.returned (PyVal.int (-1)) ∧
    (py3_sg.sg_read_into_buf (stub { okReply with resid := -1 }) 3 cdb6 [7] Option.none).outcome
      = Outcome.returned (PyVal.int 2) ∧
    (py3_sg.sg_read_into_buf (stub okReply) 3 cdb6 (List.replicate 2147483648 0)
        Option.none).outcome
      = Outcome.returned (PyVal.int (-2147483648)) := by
  refine ⟨by decide, by decide, ?_⟩
  simp only [py3_sg.sg_read_into_buf, stub, okReply, List.length_replicate]
  decide


/-- Claim C3 (amended).  For every successful request (`r ≥ 0`, masked info OK) of
`read_into_buf` or `read_as_bin_str` whose requested length (buffer length or capacity)
is below 2147483648 and for which the kernel reports a residual between 0 and the
requested length: the count computed is the requested length minus the residual (it is
the integer `read_into_buf` returns and the length of the byte string
`read_as_bin_str` returns), and it lies between 0 and the requested length. -/
theorem C3_transfer_count_amended :
    (∀ (kernel : Kernel) (sg_fd : Int) (cmd bufObj : List Nat) (t : Option Int)
        (io : sg_io_hdr_t) (rep : SgReply),
      (py3_sg.sg_read_into_buf kernel sg_fd cmd bufObj t).ioctls = [(sg_fd, io, rep)] →
      0 ≤ rep.r → (rep.info &&& SG_INFO_OK_MASK) = SG_INFO_OK →
      (bufObj.length : Int) < 2147483648 → 0 ≤ rep.resid → rep.resid ≤ bufObj.length →
      (io.dxfer_len : Int) = bufObj.length ∧
      (py3_sg.sg_read_into_buf kernel sg_fd cmd bufObj t).outcome
        = Outcome.returned (PyVal.int (bufObj.length - rep.resid)) ∧
      0 ≤ (bufObj.length : Int) - rep.resid ∧
      (bufObj.length : Int) - rep.resid ≤ bufObj.length) ∧
    (∀ (kernel : Kernel) (sg_fd : Int) (cmd : List Nat) (bufLen : Int) (t : Option Int)
        (io : sg_io_hdr_t) (rep : SgReply),
      (py3_sg.sg_read_as_bin_str kernel sg_fd cmd bufLen t).ioctls = [(sg_fd, io, rep)] →
      0 ≤ rep.r → (rep.info &&& SG_INFO_OK_MASK) = SG_INFO_OK →
      bufLen < 2147483648 → 0 ≤ rep.resid → rep.resid ≤ bufLen →
      (io.dxfer_len : Int) = bufLen ∧
      (∃ b, (py3_sg.sg_read_as_bin_str kernel sg_fd cmd bufLen t).outcome
          = Outcome.returned (PyVal.bytes b) ∧ (b.length : Int) = bufLen - rep.resid) ∧
      0 ≤ bufLen - rep.resid ∧ bufLen - rep.resid ≤ bufLen) := by
  constructor
  · intro kernel sg_fd cmd bufObj t io rep hcall hr hi h31 h0 hres
    simp only [py3_sg.sg_read_into_buf, List.cons.injEq, Prod.mk.injEq, true_and,
      and_true] at hcall ⊢
    obtain ⟨hio, hrep⟩ := hcall
    have hu : (toUInt (bufObj.length : Int) : Int) = bufObj.length :=
      toUInt_of_lt _ (by omega) (by omega)
    refine ⟨by rw [← hio]; exact hu, ?_, by omega, by omega⟩
    rw [hrep, if_neg (by omega), if_neg (not_not.mpr hi), hu,
      toCInt_of_range _ (by omega) (by omega)]
  · intro kernel sg_fd cmd bufLen t io rep hcall hr hi h31 h0 hres
    simp only [py3_sg.sg_read_as_bin_str] at hcall ⊢
    by_cases hb : bufLen ≤ 0
    · rw [if_pos hb] at hcall
      simp at hcall
    · rw [if_neg hb] at hcall ⊢
      simp only [List.cons.injEq, Prod.mk.injEq, true_and, and_true] at hcall ⊢
      obtain ⟨hio, hrep⟩ := hcall
      have hu : (toUInt bufLen : Int) = bufLen := toUInt_of_lt bufLen (by omega) (by omega)
      refine ⟨by rw [← hio]; exact hu, ?_, by omega, by omega⟩
      rw [hrep, if_neg (by omega), if_neg (not_not.mpr hi), hu,
        toCInt_of_range _ (by omega) (by omega)]
      unfold PyBytes_FromStringAndSize
      have hl : (bufLen - rep.resid).toNat ≤
          (store (List.replicate bufLen.toNat 0) rep.written).length := by
        rw [length_store, List.length_replicate]
        omega
      rw [if_neg (by omega), if_pos hl]
      refine ⟨_, rfl, ?_⟩
      rw [List.length_take, Nat.min_eq_left hl]
      omega

/-- Witness of C3: a four byte buffer, three bytes transferred, residual 1. -/
theorem C3_transfer_count_amended_witness :
    (py3_sg.sg_read_into_buf (stub { okReply with resid := 1, written := [65, 66, 67] }) 3 cdb6
        [0, 0, 0, 0] Option.none).outcome = Outcome.returned (PyVal.int (4 - 1)) :=
  (C3_transfer_count_amended.1 (stub { okReply with resid := 1, written := [65, 66, 67] }) 3 cdb6
    [0, 0, 0, 0] Option.none
    { zeroed with interface_id := 83, cmd_len := 6, mx_sb_len := 32,
                  dxfer_direction := -3, dxfer_len := 4, dxferp := Ptr.buf, cmdp := Ptr.cmd,
                  sbp := Ptr.sense, timeout := 20000 }
    { okReply with resid := 1, written := [65, 66, 67] }
    (by decide) (by decide) (by decide) (by decide) (by decide) (by decide)).2.1

/-! ## C4: the payload of `SCSIError` -/

/-- Claim C4 at the failing input: the kernel reports a failed command
(`masked_status = 1`, `host_status = 0`, `driver_status = 8`) with 18 sense bytes that
start with the byte `F0`.  `write` of `py3_sg.c` raises `SCSIError` without any of the
four values, because `s#` decodes the sense bytes as UTF-8 and the decoding fails;
`write` of `py_sg.c`, with the same `Py_BuildValue` call, raises `SCSIError` with the
three status values and the 18 sense bytes as the kernel reported them. -/
theorem C4_sense_payload_lost :
    (py3_sg.SgMethods
        (stub { okReply with info := 1, masked_status := 1, driver_status := 8,
                             sb_len_wr := 18, sense := senseMediumError }) 3
        cdb6 (py3_sg.Call.write Option.none)).outcome = Outcome.SCSIError [] ∧
    (py_sg.sg_write
        (stub { okReply with info := 1, masked_status := 1, driver_status := 8,
                             sb_len_wr := 18, sense := senseMediumError }) 3
        cdb6 Option.none).outcome
      = Outcome.SCSIError [PyVal.int 1, PyVal.int 0, PyVal.int 8,
          PyVal.bytes [240, 0, 3, 0, 0, 0, 0, 10, 0, 0, 0, 0, 17, 0, 0, 0, 0, 0]] := by
  decide

/-! ## C5: `read_as_bin_str` returns the transferred bytes -/

theorem take_store_written (old written : List Nat) (h : written.length ≤ old.length) :
    (store old written).take written.length = written := by
  unfold store
  rw [List.take_take, Nat.min_eq_left h, List.take_append_of_le_length (le_refl _),
    List.take_length]

theorem drop_store_written (old written : List Nat) (h : written.length ≤ old.length) :
    (store old written).drop written.length = old.drop written.length := by
  unfold store
  have hl : (written ++ old.drop written.length).length = old.length := by
    rw [List.length_append, List.length_drop]
    omega
  rw [← hl, List.take_length, List.drop_left]

/-- Claim C5 fails as stated.  With the capacity 2147483648 and a kernel that reports
success and transfers all 2147483648 requested bytes (residual 0), `read_as_bin_str`
computes the length -2147483648 and ends in a `SystemError` instead of returning the
2147483648 bytes. -/
theorem C5_counterexample :
    (py3_sg.sg_read_as_bin_str fillStub 3 cdb6 2147483648 Option.none).ioctls.map
        (fun e => (e.2.1.dxfer_len, e.2.2.r, e.2.2.info, e.2.2.resid))
      = [(2147483648, 0, 0, 0)] ∧
    (py3_sg.sg_read_as_bin_str fillStub 3 cdb6 2147483648 Option.none).outcome
      = Outcome.SystemError := by
  decide

/-- Claim C5 (amended).  For every capacity `0 < c < 2147483648` and every kernel reply
that reports success with residual `c - n` after storing the first `n ≤ c` bytes of a
payload `p`: `read_as_bin_str` of `py3_sg.c`, and `read` of `py_sg.c` called with the
integer `c`, return a byte string of length exactly `n` that consists of the first `n`
bytes of `p`. -/
theorem C5_owned_buffer_amended :
    (∀ (kernel : Kernel) (sg_fd : Int) (cmd : List Nat) (c : Int) (t : Option Int) (n : Nat)
        (p : List Nat) (io : sg_io_hdr_t) (rep : SgReply),
      0 < c → c < 2147483648 → (n : Int) ≤ c → n ≤ p.length →
      (py3_sg.sg_read_as_bin_str kernel sg_fd cmd c t).ioctls = [(sg_fd, io, rep)] →
      0 ≤ rep.r → (rep.info &&& SG_INFO_OK_MASK) = SG_INFO_OK →
      rep.resid = c - n → rep.written = p.take n →
      (py3_sg.sg_read_as_bin_str kernel sg_fd cmd c t).outcome
        = Outcome.returned (PyVal.bytes (p.take n)) ∧
      (p.take n).length = n) ∧
    (∀ (fresh : Nat → Nat) (kernel : Kernel) (sg_fd : Int) (cmd : List Nat) (c : Int)
        (t : Option Int) (n : Nat) (p : List Nat) (io : sg_io_hdr_t) (rep : SgReply),
      0 < c → c < 2147483648 → (n : Int) ≤ c → n ≤ p.length →
      (py_sg.sg_read fresh kernel sg_fd cmd (py_sg.BufArg.size c) t).ioctls
        = [(sg_fd, io, rep)] →
      0 ≤ rep.r → (rep.info &&& SG_INFO_OK_MASK) = SG_INFO_OK →
      rep.resid = c - n → rep.written = p.take n →
      (py_sg.sg_read fresh kernel sg_fd cmd (py_sg.BufArg.size c) t).outcome
        = Outcome.returned (PyVal.bytes (p.take n)) ∧
      (p.take n).length = n) := by
  constructor
  · intro kernel sg_fd cmd c t n p io rep hc h31 hn hp hcall hr hi hres hw
    have hlen : (p.take n).length = n := by
      rw [List.length_take]
      omega
    refine ⟨?_, hlen⟩
    simp only [py3_sg.sg_read_as_bin_str, if_neg (not_le.mpr hc), List.cons.injEq,
      Prod.mk.injEq, true_and, and_true] at hcall ⊢
    obtain ⟨-, hrep⟩ := hcall
    have hu : (toUInt c : Int) = c := toUInt_of_lt c (by omega) (by omega)
    rw [hrep, if_neg (by omega), if_neg (not_not.mpr hi), hu, hres,
      toCInt_of_range _ (by omega) (by omega)]
    unfold PyBytes_FromStringAndSize
    have e : (c - (c - (n : Int))).toNat = n := by omega
    rw [e, if_neg (by omega), hw]
    have hl : n ≤ (store (List.replicate c.toNat 0) (p.take n)).length := by
      rw [length_store, List.length_replicate]
      omega
    rw [if_pos hl]
    have := take_store_written (List.replicate c.toNat 0) (p.take n)
      (by rw [hlen, List.length_replicate]; omega)
    rw [hlen] at this
    rw [this]
  · intro fresh kernel sg_fd cmd c t n p io rep hc h31 hn hp hcall hr hi hres hw
    have hlen : (p.take n).length = n := by
      rw [List.length_take]
      omega
    refine ⟨?_, hlen⟩
    have h2e : py_sg.PyInt_AsLong (py_sg.BufArg.size c) = c := by
      rw [PyInt_AsLong_size, if_pos ⟨by omega, by omega⟩]
    simp only [py_sg.sg_read, h2e, if_neg (not_le.mpr hc), List.cons.injEq, Prod.mk.injEq,
      true_and, and_true] at hcall ⊢
    obtain ⟨-, hrep⟩ := hcall
    have hu : (toUInt c : Int) = c := toUInt_of_lt c (by omega) (by omega)
    rw [hrep, if_neg (by omega), if_neg (not_not.mpr hi), hu, hres,
      toCInt_of_range _ (by omega) (by omega)]
    simp only [if_true]
    unfold PyString_Resize
    have e : (c - (c - (n : Int))).toNat = n := by omega
    rw [e, if_neg (by omega), hw]
    have hl : n ≤ (store ((List.range c.toNat).map fresh) (p.take n)).length := by
      rw [length_store, List.length_map, List.length_range]
      omega
    rw [if_pos hl]
    have := take_store_written ((List.range c.toNat).map fresh) (p.take n)
      (by rw [hlen, List.length_map, List.length_range]; omega)
    rw [hlen] at this
    rw [this]

/-- Witness of C5: capacity 4, three bytes of the payload `[65, 66, 67, 68]` stored. -/
theorem C5_owned_buffer_amended_witness :
    (py3_sg.sg_read_as_bin_str (stub { okReply with resid := 1, written := [65, 66, 67] }) 3
        cdb6 4 Option.none).outcome = Outcome.returned (PyVal.bytes [65, 66, 67]) :=
  (C5_owned_buffer_amended.1 (stub { okReply with resid := 1, written := [65, 66, 67] }) 3
    cdb6 4 Option.none 3 [65, 66, 67, 68]
    { zeroed with interface_id := 83, cmd_len := 6, mx_sb_len := 32,
                  dxfer_direction := -3, dxfer_len := 4, dxferp := Ptr.buf, cmdp := Ptr.cmd,
                  sbp := Ptr.sense, timeout := 20000 }
    { okReply with resid := 1, written := [65, 66, 67] }
    (by decide) (by decide) (by decide) (by decide) (by decide) (by decide) (by decide)
    (by decide) (by decide)).1

/-! ## C6: `read_into_buf` and the caller's buffer -/

/-- Claim C6 fails as stated.  For a caller buffer of 4294967296 bytes `read_into_buf`
submits a request with `dxfer_len = 0`, and when the kernel reports success with
residual 0 after storing 4294967296 bytes the call returns 0. -/
theorem C6_counterexample :
    (py3_sg.sg_read_into_buf (stub { okReply with written := List.replicate 4294967296 65 }) 3
        cdb6 (List.replicate 4294967296 0) Option.none).ioctls.map (fun e => e.2.1.dxfer_len)
      = [0] ∧
    (py3_sg.sg_read_into_buf (stub { okReply with written := List.replicate 4294967296 65 }) 3
        cdb6 (List.replicate 4294967296 0) Option.none).outcome
      = Outcome.returned (PyVal.int 0) := by
  simp only [py3_sg.sg_read_into_buf, stub, okReply, List.length_replicate, List.map_cons,
    List.map_nil]
  decide

/-- Claim C6 (amended).  For every caller buffer of capacity `c < 4294967296` and every
kernel reply that reports success with residual `c - k` after storing a payload of
`k ≤ c`, `k < 2147483648` bytes: `read_into_buf` submits one request with direction
device-to-host, `dxfer_len = c` and `dxferp` at the caller's buffer, returns the integer
`k`, the first `k` bytes of the buffer are the payload and the bytes from `k` on are
what they were before the call. -/
theorem C6_read_into_buf_amended (kernel : Kernel) (sg_fd : Int) (cmd bufObj : List Nat)
    (t : Option Int) (k : Nat) (p : List Nat) (io : sg_io_hdr_t) (rep : SgReply)
    (hc : bufObj.length < 4294967296) (hk31 : k < 2147483648) (hk : k ≤ bufObj.length)
    (hp : p.length = k)
    (hcall : (py3_sg.sg_read_into_buf kernel sg_fd cmd bufObj t).ioctls = [(sg_fd, io, rep)])
    (hr : 0 ≤ rep.r) (hinfo : (rep.info &&& SG_INFO_OK_MASK) = SG_INFO_OK)
    (hres : rep.resid = (bufObj.length : Int) - k) (hw : rep.written = p) :
    io.dxfer_direction = SG_DXFER_FROM_DEV ∧ io.dxfer_len = bufObj.length ∧
    io.dxferp = Ptr.buf ∧
    (py3_sg.sg_read_into_buf kernel sg_fd cmd bufObj t).outcome
      = Outcome.returned (PyVal.int k) ∧
    (py3_sg.sg_read_into_buf kernel sg_fd cmd bufObj t).mem.take k = p ∧
    (py3_sg.sg_read_into_buf kernel sg_fd cmd bufObj t).mem.drop k = bufObj.drop k ∧
    (py3_sg.sg_read_into_buf kernel sg_fd cmd bufObj t).mem.length = bufObj.length := by
  simp only [py3_sg.sg_read_into_buf, List.cons.injEq, Prod.mk.injEq, true_and,
    and_true] at hcall ⊢
  obtain ⟨hio, hrep⟩ := hcall
  have hu : (toUInt (bufObj.length : Int) : Int) = bufObj.length :=
    toUInt_of_lt _ (by omega) (by omega)
  rw [hrep, hw]
  refine ⟨by rw [← hio], ?_, by rw [← hio], ?_, ?_, ?_, ?_⟩
  · rw [← hio]
    exact Int.ofNat_inj.mp hu
  · rw [if_neg (by omega), if_neg (not_not.mpr hinfo), hu, hres,
      toCInt_of_range _ (by omega) (by omega)]
    congr 2
    omega
  · have := take_store_written bufObj p (by omega)
    rw [hp] at this
    exact this
  · have := drop_store_written bufObj p (by omega)
    rw [hp] at this
    exact this
  · exact length_store bufObj p

/-- Witness of C6: two bytes stored into a four byte buffer. -/
theorem C6_read_into_buf_amended_witness :
    (py3_sg.sg_read_into_buf (stub { okReply with resid := 2, written := [65, 66] }) 3 cdb6
        [1, 2, 3, 4] Option.none).outcome = Outcome.returned (PyVal.int 2) ∧
    (py3_sg.sg_read_into_buf (stub { okReply with resid := 2, written := [65, 66] }) 3 cdb6
        [1, 2, 3, 4] Option.none).mem = [65, 66, 3, 4] :=
  ⟨(C6_read_into_buf_amended (stub { okReply with resid := 2, written := [65, 66] }) 3 cdb6
      [1, 2, 3, 4] Option.none 2 [65, 66]
      { zeroed with interface_id := 83, cmd_len := 6, mx_sb_len := 32,
                    dxfer_direction := -3, dxfer_len := 4, dxferp := Ptr.buf, cmdp := Ptr.cmd,
                    sbp := Ptr.sense, timeout := 20000 }
      { okReply with resid := 2, written := [65, 66] }
      (by decide) (by decide) (by decide) (by decide) (by decide) (by decide) (by decide)
      (by decide) (by decide)).2.2.2.1, by decide⟩

/-! ## C7: the request of `write` -/

/-- Claim C7 fails as stated.  For a command of 256 bytes `write` submits a request
with `cmd_len = 0`: the length is stored in an `unsigned char`. -/
theorem C7_counterexample :
    (py3_sg.sg_write (stub okReply) 3 (List.replicate 256 0) Option.none).ioctls.map
        (fun e => e.2.1.cmd_len) = [0] ∧
    (List.replicate 256 0).length = 256 := by
  simp only [py3_sg.sg_write, stub, okReply, List.length_replicate, List.map_cons,
    List.map_nil]
  decide

/-- Claim C7 (amended).  For every command shorter than 256 bytes and every optional
data buffer shorter than 4294967296 bytes, `write` makes exactly one SG_IO call whose
request has direction host-to-device, `dxfer_len` the length of the data (0 when
absent), `cmd_len` the length of the command, `mx_sb_len = 32`, and `flags`, `pack_id`
and `usr_ptr` zero; when the kernel reports success the call returns `None`. -/
theorem C7_write_request_amended (kernel : Kernel) (sg_fd : Int) (cmd : List Nat)
    (opt : Option (List Nat × Option Int)) (hcmd : cmd.length < 256)
    (hdata : ((opt.map Prod.fst).getD []).length < 4294967296) :
    ∃ io rep, (py3_sg.sg_write kernel sg_fd cmd opt).ioctls = [(sg_fd, io, rep)] ∧
      io.dxfer_direction = SG_DXFER_TO_DEV ∧
      io.dxfer_len = ((opt.map Prod.fst).getD []).length ∧
      io.cmd_len = cmd.length ∧ io.mx_sb_len = 32 ∧
      io.flags = 0 ∧ io.pack_id = 0 ∧ io.usr_ptr = Ptr.null ∧
      (0 ≤ rep.r → (rep.info &&& SG_INFO_OK_MASK) = SG_INFO_OK →
        (py3_sg.sg_write kernel sg_fd cmd opt).outcome = Outcome.returned PyVal.none) := by
  refine ⟨_, _, rfl, rfl, ?_, ?_, rfl, rfl, rfl, rfl, ?_⟩
  · apply Int.ofNat_inj.mp
    cases opt with
    | none => rfl
    | some bt =>
      have hd : bt.1.length < 4294967296 := hdata
      exact toUInt_of_lt (bt.1.length : Int) (Int.natCast_nonneg _) (by omega)
  · exact Int.ofNat_inj.mp (toUChar_of_lt (cmd.length : Int) (Int.natCast_nonneg _) (by omega))
  · intro hr hi
    simp only [py3_sg.sg_write]
    rw [if_neg (not_lt.mpr hr), if_neg (not_not.mpr hi)]

/-- Witness of C7: `write(fd, cmd)` with a six byte command of zeros and no data,
against a kernel that reports success; and the same command with an empty data
argument and the timeout 5000 (the timeout is positional after the data). -/
theorem C7_write_request_amended_witness :
    (∃ io rep, (py3_sg.sg_write (stub okReply) 3 cdb6 Option.none).ioctls = [(3, io, rep)] ∧
      io.dxfer_direction = SG_DXFER_TO_DEV ∧
      io.dxfer_len = 0 ∧
      io.cmd_len = 6 ∧ io.mx_sb_len = 32 ∧
      io.flags = 0 ∧ io.pack_id = 0 ∧ io.usr_ptr = Ptr.null ∧
      (0 ≤ rep.r → (rep.info &&& SG_INFO_OK_MASK) = SG_INFO_OK →
        (py3_sg.sg_write (stub okReply) 3 cdb6 Option.none).outcome
          = Outcome.returned PyVal.none)) ∧
    (py3_sg.sg_write (stub okReply) 3 cdb6 Option.none).outcome = Outcome.returned PyVal.none ∧
    (py3_sg.sg_write (stub okReply) 3 cdb6 (some ([], some 5000))).ioctls.map
        (fun e => (e.2.1.dxfer_direction, e.2.1.dxfer_len, e.2.1.timeout)) = [(-2, 0, 5000)] ∧
    (py3_sg.sg_write (stub okReply) 3 cdb6 (some ([], some 5000))).outcome
      = Outcome.returned PyVal.none :=
  ⟨C7_write_request_amended (stub okReply) 3 cdb6 Option.none (by decide) (by decide),
    by decide, by decide, by decide⟩

/-! ## C8: the timeout of the request -/

/-- Claim C8 at the failing input: called with the timeout 5000, `write` submits a
request with timeout 5000, while `read_into_buf` and `read_as_bin_str` submit a request
with timeout 20000 (their `timeout` is declared `const int`); with the timeout omitted
all three submit 20000. -/
theorem C8_timeout_of_request :
    (py3_sg.sg_write (stub okReply) 3 cdb6 (some ([], some 5000))).ioctls.map
        (fun e => e.2.1.timeout) = [5000] ∧
    (py3_sg.sg_read_into_buf (stub okReply) 3 cdb6 [0] (some 5000)).ioctls.map
        (fun e => e.2.1.timeout) = [20000] ∧
    (py3_sg.sg_read_as_bin_str (stub okReply) 3 cdb6 1 (some 5000)).ioctls.map
        (fun e => e.2.1.timeout) = [20000] ∧
    (py3_sg.sg_write (stub okReply) 3 cdb6 Option.none).ioctls.map
        (fun e => e.2.1.timeout) = [20000] ∧
    (py3_sg.sg_read_into_buf (stub okReply) 3 cdb6 [0] Option.none).ioctls.map
        (fun e => e.2.1.timeout) = [20000] ∧
    (py3_sg.sg_read_as_bin_str (stub okReply) 3 cdb6 1 Option.none).ioctls.map
        (fun e => e.2.1.timeout) = [20000] := by
  decide

/-! ## C9: the order of the values of `SCSIError` -/

/-- Claim C9 at the failing input: for a reply with `masked_status = 1`,
`host_status = 7`, `driver_status = 8` and no sense bytes, `write` raises `SCSIError`
with the values `(1, 7, 8, sense)`: the second value is `host_status` and the third is
`driver_status`, in both `py3_sg.c` and `py_sg.c`. -/
theorem C9_order_of_SCSIError_values :
    (py3_sg.sg_write
        (stub { okReply with info := 1, masked_status := 1, host_status := 7,
                             driver_status := 8 }) 3 cdb6 Option.none).outcome
      = Outcome.SCSIError [PyVal.int 1, PyVal.int 7, PyVal.int 8, PyVal.unicode []] ∧
    (py_sg.sg_write
        (stub { okReply with info := 1, masked_status := 1, host_status := 7,
                             driver_status := 8 }) 3 cdb6 Option.none).outcome
      = Outcome.SCSIError [PyVal.int 1, PyVal.int 7, PyVal.int 8, PyVal.bytes []] := by
  decide

/-! ## C10: the two dialects -/

/-- Claim C10 at the failing input: called with a one byte buffer, or with the size 1,
and the timeout 5000, `read` of `py_sg.c` submits a request with timeout 5000 while
`read_into_buf` and `read_as_bin_str` of `py3_sg.c` submit a request with timeout
20000. -/
theorem C10_dialects_differ :
    (py_sg.sg_read (fun _ => 0) (stub okReply) 3 cdb6 (py_sg.BufArg.buffer [0])
        (some 5000)).ioctls.map (fun e => e.2.1.timeout) = [5000] ∧
    (py3_sg.sg_read_into_buf (stub okReply) 3 cdb6 [0] (some 5000)).ioctls.map
        (fun e => e.2.1.timeout) = [20000] ∧
    (py_sg.sg_read (fun _ => 0) (stub okReply) 3 cdb6 (py_sg.BufArg.size 1)
        (some 5000)).ioctls.map (fun e => e.2.1.timeout) = [5000] ∧
    (py3_sg.sg_read_as_bin_str (stub okReply) 3 cdb6 1 (some 5000)).ioctls.map
        (fun e => e.2.1.timeout) = [20000] := by
  decide


end Sg
